import Mathlib

set_option linter.unusedVariables false

/-!
Shallow embedding of the tabular normalization / filtering / aggregation engine
of the Sport Dashboard (src/app.py).  Tables are modelled as a header list plus
string rows, pandas numeric coercion over exact rationals, and each Flask
endpoint body as a total function into `Except String _` (a `.error` value is
the JSON error response produced by the endpoint's `except` handler or its
early-return checks).
-/

/-- A DataFrame as delivered by gspread (`pd.DataFrame(raw[1:], columns=raw[0])`):
a header list and rows of raw cell strings. -/
structure DF where
  cols : List String
  rows : List (List String)
deriving DecidableEq

deriving instance DecidableEq for Except

/-- ASCII whitespace, for modelling `str.strip()`. -/
def isSpaceC (c : Char) : Bool := c == ' ' || c == '\t' || c == '\n' || c == '\r'

/-- Chars of `s.strip()`. -/
def trimChars (l : List Char) : List Char :=
  ((l.dropWhile isSpaceC).reverse.dropWhile isSpaceC).reverse

/-- Python `str.strip()` (ASCII whitespace model). -/
def strTrim (s : String) : String := ⟨trimChars s.toList⟩

def isAsciiAlpha (c : Char) : Bool :=
  (65 ≤ c.toNat && c.toNat ≤ 90) || (97 ≤ c.toNat && c.toNat ≤ 122)

def asciiLower (c : Char) : Char :=
  if 65 ≤ c.toNat ∧ c.toNat ≤ 90 then Char.ofNat (c.toNat + 32) else c

def asciiUpper (c : Char) : Char :=
  if 97 ≤ c.toNat ∧ c.toNat ≤ 122 then Char.ofNat (c.toNat - 32) else c

def titleGo : Bool → List Char → List Char
  | _, [] => []
  | prev, c :: cs =>
      (if isAsciiAlpha c then (if prev then asciiLower c else asciiUpper c) else c) ::
        titleGo (isAsciiAlpha c) cs

/-- Python `str.title()` (ASCII model): first letter of each word upper, rest lower. -/
def strTitle (s : String) : String := ⟨titleGo false s.toList⟩

/-- `.str.strip().str.title()` as applied to Sport / GENDER / Gender cells. -/
def stripTitle (s : String) : String := strTitle (strTrim s)

/-- Value of a digit list read in base 10. -/
def natOfDigits (l : List Char) : Nat := l.foldl (fun a c => a * 10 + (c.toNat - 48)) 0

/-- Split a char list at its first dot: the part before, and (when a dot exists)
the part after. -/
def breakDot : List Char → List Char × Option (List Char)
  | [] => ([], none)
  | c :: cs =>
      if c == '.' then ([], some cs)
      else
        let p := breakDot cs
        (c :: p.1, p.2)

/-- A parsed decimal literal: sign, integer-part value, fraction-part value,
and number of fraction digits.  `"10.25"` parses to `⟨false, 10, 25, 2⟩`. -/
structure Dec where
  neg : Bool
  ip : Nat
  fp : Nat
  fl : Nat
deriving DecidableEq

/-- Parse an unsigned decimal literal (digits with at most one dot, at least one
digit overall) into (integer part, fraction part, fraction length). -/
def parseCore (cs : List Char) : Option (Nat × Nat × Nat) :=
  match breakDot cs with
  | (a, none) =>
      if a ≠ [] ∧ a.all Char.isDigit then some (natOfDigits a, 0, 0) else none
  | (a, some b) =>
      if b.all (fun c => c != '.') ∧ a.all Char.isDigit ∧ b.all Char.isDigit ∧
          (a ≠ [] ∨ b ≠ []) then
        some (natOfDigits a, natOfDigits b, b.length)
      else none

/-- Trim, strip an optional sign, and parse the decimal literal. -/
def parseDec (s : String) : Option Dec :=
  match trimChars s.toList with
  | '-' :: rest => (parseCore rest).map (fun p => ⟨true, p.1, p.2.1, p.2.2⟩)
  | '+' :: rest => (parseCore rest).map (fun p => ⟨false, p.1, p.2.1, p.2.2⟩)
  | l => (parseCore l).map (fun p => ⟨false, p.1, p.2.1, p.2.2⟩)

/-- The rational value of a parsed decimal literal. -/
def decVal (d : Dec) : ℚ :=
  (if d.neg then -1 else 1) * ((d.ip : ℚ) + (d.fp : ℚ) / (10 : ℚ) ^ d.fl)

/-- `pd.to_numeric(s, errors='coerce')` on one cell: `none` is NaN.  Modelled for
plain signed decimal literals over exact rationals. -/
def toNumeric (s : String) : Option ℚ := (parseDec s).map decVal

/-- `pd.to_numeric(s, errors='coerce').fillna(0)` on one cell: the coercion used
for the POINT / Points score columns (app.py lines 77, 88, 288, 300). -/
def toNumericOr0 (s : String) : ℚ := (toNumeric s).getD 0

/-- `str.replace(r'[^\d.]', '', regex=True)`: keep only digits and dots
(app.py line 202, budget money columns). -/
def stripMoney (s : String) : String := ⟨s.toList.filter (fun c => c.isDigit || c == '.')⟩

/-- Budget coercion (app.py lines 201-202): strip non-digit/non-dot chars, then
coerce with 0 on failure. -/
def budgetCoerce (s : String) : ℚ := toNumericOr0 (stripMoney s)

/-- `.str.replace('%', '').str.replace(',', '')` (app.py line 257). -/
def stripPct (s : String) : String :=
  ⟨s.toList.filter (fun c => !(c == '%') && !(c == ','))⟩

/-- Operations coercion (app.py lines 255-257): remove percent signs and commas,
then coerce with 0 on failure. -/
def pctCoerce (s : String) : ℚ := toNumericOr0 (stripPct s)

/-- Python `int()` on a real value: truncation toward zero (app.py lines 88, 288). -/
def pyInt (q : ℚ) : ℤ := if 0 ≤ q then ⌊q⌋ else -⌊-q⌋

def lowerChars (l : List Char) : List Char := l.map asciiLower

def leadsWith : List Char → List Char → Bool
  | [], _ => true
  | _ :: _, [] => false
  | a :: as, b :: bs => a == b && leadsWith as bs

/-- Substring test over char lists (Python `pat in s`). -/
def occursIn (pat : List Char) : List Char → Bool
  | [] => pat.isEmpty
  | b :: bs => leadsWith pat (b :: bs) || occursIn pat bs

/-- The `normalize_columns` matching chain (app.py lines 44-53), applied to one
already-stripped header: the canonical name when some rule matches, else `none`.
`c_lower = col.lower()` and every rule is a substring test on it. -/
def ruleOf (t : String) : Option String :=
  let l := lowerChars t.toList
  let has := fun (p : String) => occursIn p.toList l
  if has "name" && has "student" then some "Name"
  else if has "name" then some "Name"
  else if has "department" || has "school" || has "dept" then some "Department"
  else if has "gender" || has "sex" then some "Gender"
  else if has "sport" || has "game" then some "Sport"
  else if has "point" then some "Points"
  else if has "sr" && has "no" then some "SR. NO"
  else if has "event" || has "category" then some "Event"
  else none

/-- The `new_cols` dict of `normalize_columns`: one entry per header a rule
matched (later duplicate keys carry the same value, the rule being a function
of the header). -/
def buildNewCols : List String → List (String × String)
  | [] => []
  | c :: cs =>
      match ruleOf c with
      | some r => (c, r) :: buildNewCols cs
      | none => buildNewCols cs

/-- `df.rename(columns=new_cols)` on one header: the dict value when present,
else the header itself. -/
def renameCol (m : List (String × String)) (c : String) : String :=
  match m.lookup c with
  | some r => r
  | none => c

/-- `normalize_columns` (app.py lines 41-54): strip all headers, build the
rename dict, rename each header through it.  Rows are untouched. -/
def normalize_columns (df : DF) : DF :=
  let cols1 := df.cols.map strTrim
  ⟨cols1.map (renameCol (buildNewCols cols1)), df.rows⟩

/-- End-to-end effect of `normalize_columns` on a single raw header: its
canonical role when a rule matches the trimmed header, else the trimmed header. -/
def normalizeHeader (h : String) : String := (ruleOf (strTrim h)).getD (strTrim h)

/-- `df[c]` evaluated on one row: the cell at the first index of header `c`
(empty string when out of range). -/
def rowCell (df : DF) (c : String) (r : List String) : String :=
  match df.cols.findIdx? (fun x => x == c) with
  | some i => r.getD i ""
  | none => ""

/-- The values of column `c`, one per row. -/
def DF.col (df : DF) (c : String) : List String := df.rows.map (rowCell df c)

/-- `if c in df.columns: df[c] = df[c].map(f)` — rewrite one column in place
when it exists. -/
def mapColIf (df : DF) (c : String) (f : String → String) : DF :=
  match df.cols.findIdx? (fun x => x == c) with
  | none => df
  | some i => ⟨df.cols, df.rows.map (fun r => r.set i (f (r.getD i "")))⟩

/-- `df[df[c] == v]`: keep the rows whose `c` cell equals `v`. -/
def filterEq (df : DF) (c : String) (v : String) : DF :=
  ⟨df.cols, df.rows.filter (fun r => rowCell df c r == v)⟩

/-- Fuel-driven worker for `dedupRowsBy` (structural recursion on the fuel; the
fuel never runs out when it starts at the list length). -/
def dedupRowsGo (k : List String → String) : Nat → List (List String) → List (List String)
  | _, [] => []
  | 0, _ :: _ => []
  | fuel + 1, r :: t => r :: dedupRowsGo k fuel (t.filter (fun x => !(k x == k r)))

/-- `drop_duplicates(subset=[...])` keyed by `k`: keep the first row for each
key value, in order. -/
def dedupRowsBy (k : List String → String) (rows : List (List String)) :
    List (List String) :=
  dedupRowsGo k rows.length rows

/-- `df.drop_duplicates(subset=[c])`. -/
def dedupByCol (df : DF) (c : String) : DF :=
  ⟨df.cols, dedupRowsBy (rowCell df c) df.rows⟩

/-- Fuel-driven worker for `dedupFirst`. -/
def dedupFirstGo : Nat → List String → List String
  | _, [] => []
  | 0, _ :: _ => []
  | fuel + 1, a :: t => a :: dedupFirstGo fuel (t.filter (fun x => !(x == a)))

/-- Distinct values of a list in first-occurrence order (pandas `unique`). -/
def dedupFirst (l : List String) : List String := dedupFirstGo l.length l

/-- pandas `nunique` over a list of string values. -/
def countDistinct (l : List String) : Nat := (dedupFirst l).length

/-- Occurrences of `v` in `l`. -/
def cnt (v : String) (l : List String) : Nat := (l.filter (fun x => x == v)).length

/-- Insert `x` into a descending-by-`f` sorted list, after all elements with a
key at least as large (stable descending insertion). -/
def insOrd {α β : Type} [LinearOrder β] (f : α → β) (x : α) : List α → List α
  | [] => [x]
  | y :: ys => if f y < f x then x :: y :: ys else y :: insOrd f x ys

/-- Stable sort, descending by key `f` (pandas `sort_values(ascending=False)`). -/
def sortDescBy {α β : Type} [LinearOrder β] (f : α → β) : List α → List α
  | [] => []
  | x :: xs => insOrd f x (sortDescBy f xs)

/-- Lexicographic comparison of char lists by code point (Python string order). -/
def charListLe : List Char → List Char → Bool
  | [], _ => true
  | _ :: _, [] => false
  | a :: as, b :: bs =>
      if a.toNat < b.toNat then true
      else if b.toNat < a.toNat then false
      else charListLe as bs

/-- String order used by pandas for group keys (code-point lexicographic). -/
def strLe (a b : String) : Bool := charListLe a.toList b.toList

def insAsc (x : String) : List String → List String
  | [] => [x]
  | y :: ys => if strLe x y then x :: y :: ys else y :: insAsc x ys

/-- Ascending sort of strings (pandas groupby / pivot index order). -/
def sortStrings : List String → List String
  | [] => []
  | x :: xs => insAsc x (sortStrings xs)

/-- pandas `value_counts()`: (value, count) pairs, sorted by descending count. -/
def valueCounts (l : List String) : List (String × Nat) :=
  sortDescBy Prod.snd ((dedupFirst l).map (fun v => (v, cnt v l)))

/-- `df.groupby(keyCol)[valCol].sum()` with numeric coercion of the value cells;
group keys in ascending order as pandas produces them. -/
def groupSum (df : DF) (keyCol valCol : String) : List (String × ℚ) :=
  (sortStrings (dedupFirst (df.col keyCol))).map
    (fun g => (g, ((df.rows.filter (fun r => rowCell df keyCol r == g)).map
        (fun r => toNumericOr0 (rowCell df valCol r))).sum))

/-- `df.groupby(keyCol)[valCol].nunique()`. -/
def groupNunique (df : DF) (keyCol valCol : String) : List (String × Nat) :=
  (sortStrings (dedupFirst (df.col keyCol))).map
    (fun g => (g, countDistinct
      ((df.rows.filter (fun r => rowCell df keyCol r == g)).map (rowCell df valCol))))

/-- `request.args.get(x)` truthiness: present and non-empty. -/
def truthy : Option String → Bool
  | none => false
  | some s => !s.isEmpty

def optVal (o : Option String) : String := o.getD ""

/-! ## The /api/data endpoint (get_data, app.py lines 72-147) -/

structure KPI where
  totalAchievements : Nat
  totalPoints : ℤ
  uniqueSports : Nat
deriving DecidableEq

structure LabelSeries where
  labels : List String
  series : List Nat
deriving DecidableEq

structure SbGen where
  categories : List String
  series : List (String × List Nat)
deriving DecidableEq

structure DataResult where
  kpiMetrics : KPI
  schoolParticipation : List (String × Nat)
  schoolPoints : List (String × ℚ)
  genderDistribution : LabelSeries
  achievementTypesBar : List (String × Nat)
  achievementTypesPie : LabelSeries
  popularSportsBar : List (String × Nat)
  sportsPie : LabelSeries
  sportByGender : SbGen
deriving DecidableEq

/-- app.py lines 76-79: in-place cleanups applied before filtering (`Sport`
strip+title, `GENDER` strip+title, `RESULTS` strip; the `POINT` numeric
coercion is modelled at its use sites, on the raw cell strings). -/
def transformMain (df : DF) : DF :=
  mapColIf (mapColIf (mapColIf df "Sport" stripTitle) "GENDER" stripTitle) "RESULTS" strTrim

/-- `int(pd.to_numeric(df['POINT'], errors='coerce').sum()) if 'POINT' in df.columns else 0`
(app.py line 88). -/
def totalPointsKpi (df : DF) : ℤ :=
  if "POINT" ∈ df.cols then pyInt (((df.col "POINT").map toNumericOr0).sum) else 0

/-- `kpi_metrics` (app.py lines 86-90). -/
def mkKpi (df : DF) : KPI :=
  { totalAchievements := df.rows.length
    totalPoints := totalPointsKpi df
    uniqueSports := if "Sport" ∈ df.cols then countDistinct (df.col "Sport") else 0 }

/-- `school_points` (app.py lines 92-97): grouped POINT sums, sorted descending. -/
def mkSchoolPoints (df : DF) : List (String × ℚ) :=
  if "School" ∈ df.cols then sortDescBy Prod.snd (groupSum df "School" "POINT") else []

/-- `school_data` (app.py lines 99-103): School value counts. -/
def mkSchoolPart (df : DF) : List (String × Nat) :=
  if "School" ∈ df.cols then valueCounts (df.col "School") else []

/-- `gender_data` (app.py lines 105-109): GENDER value counts, over rows
deduplicated by `SR. NO` when that column exists, else over all rows. -/
def genderAggMain (df : DF) : LabelSeries :=
  if "GENDER" ∈ df.cols then
    let uniq := if "SR. NO" ∈ df.cols then dedupByCol df "SR. NO" else df
    let vc := valueCounts (uniq.col "GENDER")
    ⟨vc.map Prod.fst, vc.map Prod.snd⟩
  else ⟨[], []⟩

/-- The full, un-truncated RESULTS value counts (app.py line 114). -/
def resultsCounts (df : DF) : List (String × Nat) := valueCounts (df.col "RESULTS")

/-- `a_bar` (app.py line 116): first 5 of the RESULTS counts. -/
def mkABar (df : DF) : List (String × Nat) :=
  if "RESULTS" ∈ df.cols then (resultsCounts df).take 5 else []

/-- `a_pie` (app.py line 117): the full RESULTS counts. -/
def mkAPie (df : DF) : LabelSeries :=
  if "RESULTS" ∈ df.cols then
    ⟨(resultsCounts df).map Prod.fst, (resultsCounts df).map Prod.snd⟩
  else ⟨[], []⟩

/-- `s_c` (app.py line 122): distinct `SR. NO` count per Sport, sorted descending. -/
def sportsCounts (df : DF) : List (String × Nat) :=
  sortDescBy Prod.snd (groupNunique df "Sport" "SR. NO")

/-- `s_pie` (app.py line 123). -/
def mkSportsPie (df : DF) : LabelSeries :=
  if "Sport" ∈ df.cols then
    ⟨(sportsCounts df).map Prod.fst, (sportsCounts df).map Prod.snd⟩
  else ⟨[], []⟩

/-- `pop_sports` (app.py line 124): first 6 of the sports counts. -/
def mkPopSports (df : DF) : List (String × Nat) :=
  if "Sport" ∈ df.cols then (sportsCounts df).take 6 else []

/-- One pivot cell (app.py line 128): distinct `SR. NO` values among the rows
with the given Sport and GENDER; 0 when no row matches (`fillna(0)`). -/
def sbCell (df : DF) (s g : String) : Nat :=
  countDistinct ((df.rows.filter
    (fun r => rowCell df "Sport" r == s && rowCell df "GENDER" r == g)).map
      (rowCell df "SR. NO"))

/-- `p['Total']` for one pivot row (app.py line 129): the row sum across all
gender columns. -/
def sbTotal (df : DF) (s : String) : Nat :=
  ((sortStrings (dedupFirst (df.col "GENDER"))).map (fun g => sbCell df s g)).sum

/-- The pivot `sb_gen` (app.py lines 128-134): rows sorted descending by their
total, the Total column itself dropped from the emitted columns. -/
def mkSbGen (df : DF) : SbGen :=
  let cats := sortDescBy (sbTotal df) (sortStrings (dedupFirst (df.col "Sport")))
  let outCols := (sortStrings (dedupFirst (df.col "GENDER"))).filter (fun g => !(g == "Total"))
  ⟨cats, outCols.map (fun g => (g, cats.map (fun s => sbCell df s g)))⟩

/-- app.py line 127: the pivot block runs only when both columns exist. -/
def mkSbGenGuarded (df : DF) : SbGen :=
  if "Sport" ∈ df.cols ∧ "GENDER" ∈ df.cols then mkSbGen df else ⟨[], []⟩

/-- The `/api/data` endpoint body (app.py `get_data`).  Pandas `KeyError`s,
caught by the outer `except` and turned into an error response, are made
explicit: the GENDER/School filters on an absent column (lines 83-84), the
School points groupby with `POINT` absent (line 94), and the Sport aggregates
with `SR. NO` absent (lines 122, 128). -/
def get_data (df0 : DF) (gA sA : Option String) : Except String DataResult :=
  if df0.rows.isEmpty then Except.error "No data" else
  let df1 := transformMain df0
  if truthy gA ∧ "GENDER" ∉ df1.cols then Except.error "KeyError: GENDER" else
  let df2 := if truthy gA then filterEq df1 "GENDER" (optVal gA) else df1
  if truthy sA ∧ "School" ∉ df2.cols then Except.error "KeyError: School" else
  let df := if truthy sA then filterEq df2 "School" (optVal sA) else df2
  if "School" ∈ df.cols ∧ "POINT" ∉ df.cols then Except.error "KeyError: POINT" else
  if "Sport" ∈ df.cols ∧ "SR. NO" ∉ df.cols then Except.error "KeyError: SR. NO" else
  Except.ok
    { kpiMetrics := mkKpi df
      schoolParticipation := mkSchoolPart df
      schoolPoints := mkSchoolPoints df
      genderDistribution := genderAggMain df
      achievementTypesBar := mkABar df
      achievementTypesPie := mkAPie df
      popularSportsBar := mkPopSports df
      sportsPie := mkSportsPie df
      sportByGender := mkSbGenGuarded df }

/-! ## The /api/staff_data endpoint (get_staff_data, app.py lines 277-310) -/

structure StaffKpi where
  totalAchievements : Nat
  totalPoints : ℤ
deriving DecidableEq

structure CatSeriesN where
  categories : List String
  series : List Nat
deriving DecidableEq

structure CatSeriesQ where
  categories : List String
  series : List ℚ
deriving DecidableEq

structure StaffResult where
  kpi : StaffKpi
  gender : LabelSeries
  department : CatSeriesN
  department_points : CatSeriesQ
  sports : LabelSeries
deriving DecidableEq

/-- app.py lines 283-285: normalize headers, then clean Sport and Gender cells. -/
def staffTransform (df : DF) : DF :=
  mapColIf (mapColIf (normalize_columns df) "Sport" stripTitle) "Gender" stripTitle

/-- app.py line 288. -/
def staffTotalPoints (df : DF) : ℤ :=
  if "Points" ∈ df.cols then pyInt (((df.col "Points").map toNumericOr0).sum) else 0

/-- `id_col = 'SR. NO' if 'SR. NO' in df.columns else 'Name'` (app.py line 290). -/
def staffIdCol (df : DF) : String := if "SR. NO" ∈ df.cols then "SR. NO" else "Name"

/-- app.py lines 291-293: Gender counts over rows deduplicated by the id column. -/
def staffGender (df : DF) : LabelSeries :=
  let vc := valueCounts ((dedupByCol df (staffIdCol df)).col "Gender")
  ⟨vc.map Prod.fst, vc.map Prod.snd⟩

/-- The full, un-truncated Department value counts (app.py line 296). -/
def deptCounts (df : DF) : List (String × Nat) := valueCounts (df.col "Department")

/-- `dept_data` (app.py lines 295-297): first 25 of the Department counts. -/
def mkDeptData (df : DF) : CatSeriesN :=
  if "Department" ∈ df.cols then
    ⟨((deptCounts df).take 25).map Prod.fst, ((deptCounts df).take 25).map Prod.snd⟩
  else ⟨[], []⟩

/-- The full grouped Points-by-Department list, sorted descending (app.py line 301). -/
def deptPointsList (df : DF) : List (String × ℚ) :=
  sortDescBy Prod.snd (groupSum df "Department" "Points")

/-- `dept_points_data` (app.py lines 298-302): first 25 of the sorted sums. -/
def mkDeptPoints (df : DF) : CatSeriesQ :=
  if "Department" ∈ df.cols ∧ "Points" ∈ df.cols then
    ⟨((deptPointsList df).take 25).map Prod.fst, ((deptPointsList df).take 25).map Prod.snd⟩
  else ⟨[], []⟩

/-- `sports_data` (app.py lines 303-306). -/
def mkStaffSports (df : DF) : LabelSeries :=
  if "Sport" ∈ df.cols then
    ⟨(valueCounts (df.col "Sport")).map Prod.fst, (valueCounts (df.col "Sport")).map Prod.snd⟩
  else ⟨[], []⟩

/-- The `/api/staff_data` endpoint body (app.py `get_staff_data`).  The
unguarded `drop_duplicates` (KeyError when neither `SR. NO` nor `Name` exists,
line 291) and `unique_p['Gender']` (KeyError when `Gender` is absent, line 292)
are made explicit. -/
def get_staff_data (df0 : DF) : Except String StaffResult :=
  if df0.rows.isEmpty then Except.error "No data in Staff Summit sheet" else
  let df := staffTransform df0
  if "SR. NO" ∉ df.cols ∧ "Name" ∉ df.cols then Except.error "KeyError: Name" else
  if "Gender" ∉ df.cols then Except.error "KeyError: Gender" else
  Except.ok
    { kpi := ⟨df.rows.length, staffTotalPoints df⟩
      gender := staffGender df
      department := mkDeptData df
      department_points := mkDeptPoints df
      sports := mkStaffSports df }

/-! ## The /api/operations endpoint (get_operations_data, app.py lines 239-269) -/

structure OpsResult where
  facilities : List String
  used : List ℚ
  unused : List ℚ
  totals : List ℚ
deriving DecidableEq

/-- `df.columns = df.columns.str.strip()` (app.py line 245). -/
def trimColsDF (df : DF) : DF := ⟨df.cols.map strTrim, df.rows⟩

/-- app.py lines 245-249: stripped headers, then the optional month filter,
which runs only when the `Month` column exists. -/
def opsView (df : DF) (m : Option String) : DF :=
  if truthy m ∧ "Month" ∈ (trimColsDF df).cols then
    filterEq (trimColsDF df) "Month" (optVal m)
  else trimColsDF df

/-- The `/api/operations` endpoint body (app.py `get_operations_data`): empty
result on an empty table, explicit error when a required column is missing,
`unused = max(Capacity_month - utilized, 0)` per row over the coerced values. -/
def get_operations_data (df : DF) (m : Option String) : Except String OpsResult :=
  if df.rows.isEmpty then Except.ok ⟨[], [], [], []⟩ else
  if "Games" ∈ (opsView df m).cols ∧ "utilized" ∈ (opsView df m).cols ∧
      "Capacity_month" ∈ (opsView df m).cols then
    Except.ok ⟨(opsView df m).col "Games",
      ((opsView df m).col "utilized").map pctCoerce,
      List.zipWith (fun c u => max (c - u) 0)
        (((opsView df m).col "Capacity_month").map pctCoerce)
        (((opsView df m).col "utilized").map pctCoerce),
      ((opsView df m).col "Capacity_month").map pctCoerce⟩
  else Except.error "Missing Columns in Sheet2"

/-! ## Supporting lemmas: sorting -/

theorem insOrd_mem {α β : Type} [LinearOrder β] (f : α → β) (x : α) :
    ∀ l y, y ∈ insOrd f x l → y = x ∨ y ∈ l := by
  intro l
  induction l with
  | nil =>
      intro y h
      simp only [insOrd, List.mem_singleton] at h
      exact Or.inl h
  | cons a t ih =>
      intro y h
      simp only [insOrd] at h
      split at h
      · rcases List.mem_cons.mp h with h | h
        · exact Or.inl h
        · exact Or.inr h
      · rcases List.mem_cons.mp h with h | h
        · exact Or.inr (h ▸ List.mem_cons_self a t)
        · rcases ih y h with h' | h'
          · exact Or.inl h'
          · exact Or.inr (List.mem_cons_of_mem a h')

theorem insOrd_pairwise {α β : Type} [LinearOrder β] (f : α → β) (x : α) :
    ∀ l, List.Pairwise (fun a b => f b ≤ f a) l →
      List.Pairwise (fun a b => f b ≤ f a) (insOrd f x l) := by
  intro l
  induction l with
  | nil =>
      intro _
      simp [insOrd]
  | cons a t ih =>
      intro hp
      rcases List.pairwise_cons.mp hp with ⟨ha, ht⟩
      simp only [insOrd]
      split
      · rename_i hlt
        refine List.pairwise_cons.mpr ⟨?_, hp⟩
        intro z hz
        rcases List.mem_cons.mp hz with rfl | hz
        · exact le_of_lt hlt
        · exact le_trans (ha z hz) (le_of_lt hlt)
      · rename_i hge
        refine List.pairwise_cons.mpr ⟨?_, ih ht⟩
        intro z hz
        rcases insOrd_mem f x t z hz with rfl | hz
        · exact not_lt.mp hge
        · exact ha z hz

theorem sortDescBy_pairwise {α β : Type} [LinearOrder β] (f : α → β) :
    ∀ l, List.Pairwise (fun a b => f b ≤ f a) (sortDescBy f l) := by
  intro l
  induction l with
  | nil => simp [sortDescBy]
  | cons x t ih => exact insOrd_pairwise f x _ ih

theorem insOrd_perm {α β : Type} [LinearOrder β] (f : α → β) (x : α) :
    ∀ l, (insOrd f x l).Perm (x :: l) := by
  intro l
  induction l with
  | nil => simp [insOrd]
  | cons a t ih =>
      simp only [insOrd]
      split
      · exact List.Perm.refl _
      · exact (ih.cons a).trans (List.Perm.swap x a t)

theorem sortDescBy_perm {α β : Type} [LinearOrder β] (f : α → β) :
    ∀ l, (sortDescBy f l).Perm l := by
  intro l
  induction l with
  | nil => exact List.Perm.refl _
  | cons x t ih => exact (insOrd_perm f x _).trans (ih.cons x)

/-! ## Supporting lemmas: dedup and counting -/

theorem map_filter_comp {α β : Type} (f : α → β) (p : β → Bool) :
    ∀ l : List α, (l.filter (fun x => p (f x))).map f = (l.map f).filter p := by
  intro l
  induction l with
  | nil => rfl
  | cons a t ih =>
      simp only [List.filter_cons, List.map_cons]
      by_cases h : p (f a)
      · simp [h, ih]
      · simp [h, ih]

theorem dedupFirstGo_mem : ∀ (fuel : Nat) (l : List String) (x : String),
    x ∈ dedupFirstGo fuel l → x ∈ l := by
  intro fuel
  induction fuel with
  | zero =>
      intro l x h
      cases l with
      | nil => simp [dedupFirstGo] at h
      | cons a t => simp [dedupFirstGo] at h
  | succ n ih =>
      intro l x h
      cases l with
      | nil => simp [dedupFirstGo] at h
      | cons a t =>
          simp only [dedupFirstGo] at h
          rcases List.mem_cons.mp h with rfl | h
          · exact List.mem_cons_self _ _
          · exact List.mem_cons_of_mem a (List.mem_of_mem_filter (ih _ x h))

theorem dedupFirst_mem (l : List String) (x : String) (h : x ∈ dedupFirst l) : x ∈ l :=
  dedupFirstGo_mem l.length l x h

theorem cnt_cons (v a : String) (l : List String) :
    cnt v (a :: l) = (if a = v then 1 else 0) + cnt v l := by
  simp only [cnt, List.filter_cons]
  by_cases h : a = v
  · simp [h]
    omega
  · simp [h]

theorem cnt_filter_ne (v a : String) (h : ¬(v = a)) :
    ∀ l : List String, cnt v (l.filter (fun x => !(x == a))) = cnt v l := by
  intro l
  induction l with
  | nil => rfl
  | cons b t ih =>
      rw [List.filter_cons]
      by_cases hb : b = a
      · have hcond : (!(b == a)) = false := by simp [hb]
        rw [hcond]
        simp only [Bool.false_eq_true, if_false]
        rw [ih, cnt_cons v b t, if_neg (fun hh : b = v => h (hh ▸ hb ▸ rfl))]
        omega
      · have hcond : (!(b == a)) = true := by simp [hb]
        rw [hcond]
        simp only [if_true]
        rw [cnt_cons, cnt_cons, ih]

theorem length_filter_ne (a : String) :
    ∀ l : List String, (l.filter (fun x => !(x == a))).length + cnt a l = l.length := by
  intro l
  induction l with
  | nil => rfl
  | cons b t ih =>
      rw [List.filter_cons]
      by_cases hb : b = a
      · have hcond : (!(b == a)) = false := by simp [hb]
        rw [hcond]
        simp only [Bool.false_eq_true, if_false, List.length_cons]
        rw [cnt_cons a b t, if_pos hb]
        omega
      · have hcond : (!(b == a)) = true := by simp [hb]
        rw [hcond]
        simp only [if_true, List.length_cons]
        rw [cnt_cons a b t, if_neg hb]
        omega

theorem sum_cnt_dedupFirstGo : ∀ (fuel : Nat) (l : List String), l.length ≤ fuel →
    ((dedupFirstGo fuel l).map (fun v => cnt v l)).sum = l.length := by
  intro fuel
  induction fuel with
  | zero =>
      intro l h
      cases l with
      | nil => rfl
      | cons a t => simp at h
  | succ n ih =>
      intro l h
      cases l with
      | nil => rfl
      | cons a t =>
          simp only [dedupFirstGo, List.map_cons, List.sum_cons]
          rw [cnt_cons a a t, if_pos rfl]
          have hcong : ((dedupFirstGo n (t.filter (fun x => !(x == a)))).map
                (fun v => cnt v (a :: t))).sum =
              ((dedupFirstGo n (t.filter (fun x => !(x == a)))).map
                (fun v => cnt v (t.filter (fun x => !(x == a))))).sum := by
            apply congrArg
            apply List.map_congr_left
            intro v hv
            have hvm : v ∈ t.filter (fun x => !(x == a)) := dedupFirstGo_mem n _ v hv
            have hne : ¬(v = a) := by
              have := List.of_mem_filter hvm
              simpa using this
            rw [cnt_cons v a t, if_neg (fun hh : a = v => hne hh.symm),
              cnt_filter_ne v a hne t]
            omega
          rw [hcong]
          have hfl : (t.filter (fun x => !(x == a))).length ≤ n :=
            le_trans (List.length_filter_le _ _) (Nat.succ_le_succ_iff.mp (by simpa using h))
          rw [ih _ hfl]
          have hlen := length_filter_ne a t
          simp only [List.length_cons]
          omega

theorem sum_cnt_dedupFirst (l : List String) :
    ((dedupFirst l).map (fun v => cnt v l)).sum = l.length :=
  sum_cnt_dedupFirstGo l.length l (le_refl _)

theorem valueCounts_sum (l : List String) :
    ((valueCounts l).map Prod.snd).sum = l.length := by
  have hperm : ((valueCounts l).map Prod.snd).Perm
      (((dedupFirst l).map (fun v => (v, cnt v l))).map Prod.snd) :=
    (sortDescBy_perm Prod.snd _).map Prod.snd
  rw [hperm.sum_eq]
  rw [List.map_map]
  exact sum_cnt_dedupFirst l

theorem dedupRowsGo_length (k : List String → String) :
    ∀ (fuel : Nat) (rows : List (List String)),
      (dedupRowsGo k fuel rows).length = (dedupFirstGo fuel (rows.map k)).length := by
  intro fuel
  induction fuel with
  | zero =>
      intro rows
      cases rows with
      | nil => rfl
      | cons r t => rfl
  | succ n ih =>
      intro rows
      cases rows with
      | nil => rfl
      | cons r t =>
          simp only [dedupRowsGo, List.map_cons, dedupFirstGo, List.length_cons]
          rw [ih]
          congr 2
          rw [map_filter_comp k (fun y => !(y == k r)) t]

theorem dedupRowsBy_length (k : List String → String) (rows : List (List String)) :
    (dedupRowsBy k rows).length = countDistinct (rows.map k) := by
  unfold dedupRowsBy countDistinct dedupFirst
  rw [dedupRowsGo_length k rows.length rows, List.length_map]

/-! ## Supporting lemmas: columns and transforms -/

theorem mapColIf_cols (df : DF) (c : String) (f : String → String) :
    (mapColIf df c f).cols = df.cols := by
  unfold mapColIf
  cases h : df.cols.findIdx? (fun x => x == c) with
  | none => rfl
  | some i => rfl

theorem mapColIf_rows_length (df : DF) (c : String) (f : String → String) :
    (mapColIf df c f).rows.length = df.rows.length := by
  unfold mapColIf
  cases h : df.cols.findIdx? (fun x => x == c) with
  | none => rfl
  | some i => simp

theorem transformMain_cols (df : DF) : (transformMain df).cols = df.cols := by
  unfold transformMain
  rw [mapColIf_cols, mapColIf_cols, mapColIf_cols]

theorem transformMain_rows_length (df : DF) :
    (transformMain df).rows.length = df.rows.length := by
  unfold transformMain
  rw [mapColIf_rows_length]
  rw [mapColIf_rows_length]
  rw [mapColIf_rows_length]

theorem col_length (df : DF) (c : String) : (df.col c).length = df.rows.length := by
  simp [DF.col]

theorem dedupByCol_cols (df : DF) (c : String) : (dedupByCol df c).cols = df.cols := rfl

theorem dedupByCol_rows_length (df : DF) (c : String) :
    (dedupByCol df c).rows.length = countDistinct (df.col c) := by
  unfold dedupByCol DF.col
  exact dedupRowsBy_length (rowCell df c) df.rows

/-! ## Supporting lemmas: numeric parsing -/

theorem breakDot_fst_mem : ∀ (cs : List Char) (x : Char), x ∈ (breakDot cs).1 → x ∈ cs := by
  intro cs
  induction cs with
  | nil => intro x h; simp [breakDot] at h
  | cons c t ih =>
      intro x h
      simp only [breakDot] at h
      split at h
      · simp at h
      · rcases List.mem_cons.mp h with rfl | h
        · exact List.mem_cons_self _ _
        · exact List.mem_cons_of_mem c (ih x h)

theorem breakDot_snd_mem : ∀ (cs b : List Char) (x : Char),
    (breakDot cs).2 = some b → x ∈ b → x ∈ cs := by
  intro cs
  induction cs with
  | nil => intro b x h; simp [breakDot] at h
  | cons c t ih =>
      intro b x h hx
      simp only [breakDot] at h
      split at h
      · rename_i hc
        cases h
        exact List.mem_cons_of_mem c hx
      · exact List.mem_cons_of_mem c (ih b x h hx)

theorem parseCore_none (cs : List Char) (h : ∀ c ∈ cs, c.isDigit = false) :
    parseCore cs = none := by
  unfold parseCore
  cases hb : breakDot cs with
  | mk a ob =>
      cases ob with
      | none =>
          simp only []
          rw [if_neg]
          intro hcl
          rcases hcl with ⟨hne, hall⟩
          cases a with
          | nil => exact hne rfl
          | cons c0 rest =>
              have hm : c0 ∈ cs := breakDot_fst_mem cs c0 (by rw [hb]; exact List.mem_cons_self _ _)
              have := List.all_eq_true.mp hall c0 (List.mem_cons_self _ _)
              rw [h c0 hm] at this
              exact Bool.false_ne_true this
      | some b =>
          simp only []
          rw [if_neg]
          intro hcl
          rcases hcl with ⟨hnd, ha, hbd, hor⟩
          rcases hor with hne | hne
          · cases a with
            | nil => exact hne rfl
            | cons c0 rest =>
                have hm : c0 ∈ cs := breakDot_fst_mem cs c0 (by rw [hb]; exact List.mem_cons_self _ _)
                have := List.all_eq_true.mp ha c0 (List.mem_cons_self _ _)
                rw [h c0 hm] at this
                exact Bool.false_ne_true this
          · cases b with
            | nil => exact hne rfl
            | cons c0 rest =>
                have hm : c0 ∈ cs := breakDot_snd_mem cs _ c0 (by rw [hb]) (List.mem_cons_self _ _)
                have := List.all_eq_true.mp hbd c0 (List.mem_cons_self _ _)
                rw [h c0 hm] at this
                exact Bool.false_ne_true this

theorem trimChars_mem (l : List Char) (x : Char) (h : x ∈ trimChars l) : x ∈ l := by
  unfold trimChars at h
  have h1 := List.mem_reverse.mp h
  have h2 := (List.dropWhile_sublist _).mem h1
  have h3 := List.mem_reverse.mp h2
  exact (List.dropWhile_sublist _).mem h3

theorem parseDec_none (s : String) (h : ∀ c ∈ s.toList, c.isDigit = false) :
    parseDec s = none := by
  have hm : ∀ c ∈ trimChars s.toList, c.isDigit = false :=
    fun c hc => h c (trimChars_mem s.toList c hc)
  unfold parseDec
  split
  · rename_i rest heq
    rw [parseCore_none rest (fun c hc => hm c (heq ▸ List.mem_cons_of_mem _ hc))]
    rfl
  · rename_i rest heq
    rw [parseCore_none rest (fun c hc => hm c (heq ▸ List.mem_cons_of_mem _ hc))]
    rfl
  · rename_i l h1 h2
    rw [parseCore_none _ hm]
    rfl

theorem toNumericOr0_of_noDigit (s : String) (h : ∀ c ∈ s.toList, c.isDigit = false) :
    toNumericOr0 s = 0 := by
  unfold toNumericOr0 toNumeric
  rw [parseDec_none s h]
  rfl

theorem budgetCoerce_of_noDigit (s : String) (h : ∀ c ∈ s.toList, c.isDigit = false) :
    budgetCoerce s = 0 := by
  unfold budgetCoerce
  apply toNumericOr0_of_noDigit
  intro c hc
  have hc' : c ∈ s.toList.filter (fun c => c.isDigit || c == '.') := hc
  exact h c (List.mem_of_mem_filter hc')

theorem pyInt_le_of_nonneg (q : ℚ) (h : 0 ≤ q) :
    (pyInt q : ℚ) ≤ q ∧ q < (pyInt q : ℚ) + 1 := by
  rw [pyInt, if_pos h]
  exact ⟨Int.floor_le q, Int.lt_floor_add_one q⟩

/-! ## Supporting lemmas: header normalization -/

theorem buildNewCols_lookup_none (c : String) (hc : ruleOf c = none) :
    ∀ cs : List String, (buildNewCols cs).lookup c = none := by
  intro cs
  induction cs with
  | nil => rfl
  | cons a t ih =>
      rw [buildNewCols]
      cases ha : ruleOf a with
      | none => exact ih
      | some r =>
          simp only [List.lookup]
          have hne : (c == a) = false := by
            rw [beq_eq_false_iff_ne]
            intro hca
            rw [hca, ha] at hc
            cases hc
          rw [hne]
          exact ih

theorem buildNewCols_lookup_some (c r : String) (hc : ruleOf c = some r) :
    ∀ cs : List String, c ∈ cs → (buildNewCols cs).lookup c = some r := by
  intro cs
  induction cs with
  | nil => intro h; cases h
  | cons a t ih =>
      intro hmem
      rw [buildNewCols]
      by_cases hca : c = a
      · subst hca
        rw [hc]
        simp [List.lookup]
      · cases ha : ruleOf a with
        | none =>
            exact ih (List.mem_of_ne_of_mem hca (by exact hmem))
        | some r' =>
            simp only [List.lookup]
            have hne : (c == a) = false := beq_eq_false_iff_ne.mpr hca
            rw [hne]
            exact ih (List.mem_of_ne_of_mem hca hmem)

theorem renameCol_buildNewCols (cs : List String) (c : String) (hc : c ∈ cs) :
    renameCol (buildNewCols cs) c = (ruleOf c).getD c := by
  unfold renameCol
  cases h : ruleOf c with
  | none =>
      rw [buildNewCols_lookup_none c h cs]
      rfl
  | some r =>
      rw [buildNewCols_lookup_some c r h cs hc]
      rfl

theorem normalize_columns_cols (df : DF) :
    (normalize_columns df).cols = df.cols.map normalizeHeader := by
  unfold normalize_columns
  simp only [List.map_map]
  apply List.map_congr_left
  intro h hmem
  have : strTrim h ∈ df.cols.map strTrim := List.mem_map_of_mem strTrim hmem
  simp only [Function.comp]
  rw [renameCol_buildNewCols _ _ this]
  rfl

theorem normalize_columns_rows (df : DF) : (normalize_columns df).rows = df.rows := rfl

/-! ## Supporting lemmas: zipWith clamp -/

theorem zipWith_clamp_nonneg :
    ∀ (l1 l2 : List ℚ) (x : ℚ),
      x ∈ List.zipWith (fun c u => max (c - u) 0) l1 l2 → 0 ≤ x := by
  intro l1
  induction l1 with
  | nil => intro l2 x h; simp at h
  | cons a t ih =>
      intro l2 x h
      cases l2 with
      | nil => simp at h
      | cons b s =>
          rcases List.mem_cons.mp h with rfl | h
          · exact le_max_right _ _
          · exact ih s x h

/-! ## Evaluation helpers for concrete coercions -/

theorem toNumericOr0_eq (s : String) (d : Dec) (h : parseDec s = some d) :
    toNumericOr0 s = decVal d := by
  unfold toNumericOr0 toNumeric
  rw [h]
  rfl

theorem toNumericOr0_none (s : String) (h : parseDec s = none) : toNumericOr0 s = 0 := by
  unfold toNumericOr0 toNumeric
  rw [h]
  rfl

/-! ## Claim C3 -/

/-- C3, corrected: normalization maps the raw header "Name of Student" to the
canonical Name role, and it also maps "Sport Name" to Name — the generic
"name" rule (app.py line 47) matches "sport name" before the sport rule
(line 50) is ever reached, so "Sport Name" is neither passed through nor
assigned the Sport role. -/
theorem c3_theorem :
    normalizeHeader "Name of Student" = "Name" ∧ normalizeHeader "Sport Name" = "Name" := by
  decide

/-- C3 counterexample: the raw header "Sport Name" is not passed through
unchanged by header normalization; it is renamed to "Name". -/
theorem c3_counterexample :
    normalizeHeader "Sport Name" = "Name" ∧ ¬(normalizeHeader "Sport Name" = "Sport Name") := by
  decide

/-! ## Claim C4 -/

/-- C4, corrected: normalization renames every (stripped) header independently
through the matching rules — the output always has exactly one column per input
header, in source order.  When two raw headers map to the same canonical role,
both keep that role (the table ends up with duplicate column names); no
colliding header is discarded and no warning exists in the code. -/
theorem c4_theorem (df : DF) :
    (normalize_columns df).cols = df.cols.map normalizeHeader ∧
    (normalize_columns df).cols.length = df.cols.length ∧
    (normalize_columns df).rows = df.rows := by
  refine ⟨normalize_columns_cols df, ?_, rfl⟩
  rw [normalize_columns_cols df, List.length_map]

/-- C4 counterexample: with raw headers "Name of Student" and "Sport Name" the
normalized table has TWO columns carrying the Name role — the later colliding
header is renamed, not discarded, so the at-most-one-per-role invariant fails. -/
theorem c4_counterexample :
    (normalize_columns ⟨["Name of Student", "Sport Name"], [["a", "b"]]⟩).cols
      = ["Name", "Name"] := by
  decide

/-! ## Claim C5 -/

/-- C5, corrected: a cell with no digits coerces to 0 under both coercions, and
the stripping of non-digit/non-decimal-point characters happens only in the
budget-money coercion (app.py line 202), where "$1,234.50" gives 1234.50 and
"85%" gives 85.  The Score (POINT/Points) coercion (lines 77, 88) parses the
raw cell without stripping, so "$1,234.50" and "85%" both coerce to 0 there. -/
theorem c5_theorem (s : String) (h : ∀ c ∈ s.toList, c.isDigit = false) :
    toNumericOr0 s = 0 ∧ budgetCoerce s = 0 ∧
    budgetCoerce "$1,234.50" = 1234.50 ∧ budgetCoerce "85%" = 85 ∧
    toNumericOr0 "$1,234.50" = 0 ∧ toNumericOr0 "85%" = 0 := by
  refine ⟨toNumericOr0_of_noDigit s h, budgetCoerce_of_noDigit s h, ?_, ?_, ?_, ?_⟩
  · show toNumericOr0 (stripMoney "$1,234.50") = 1234.50
    rw [toNumericOr0_eq _ ⟨false, 1234, 50, 2⟩ (by decide)]
    norm_num [decVal]
  · show toNumericOr0 (stripMoney "85%") = 85
    rw [toNumericOr0_eq _ ⟨false, 85, 0, 0⟩ (by decide)]
    norm_num [decVal]
  · exact toNumericOr0_none _ (by decide)
  · exact toNumericOr0_none _ (by decide)

/-- C5 witness: the theorem instantiated at the digit-free cell "N/A". -/
theorem c5_witness :
    (∀ c ∈ "N/A".toList, c.isDigit = false) ∧
    (toNumericOr0 "N/A" = 0 ∧ budgetCoerce "N/A" = 0 ∧
      budgetCoerce "$1,234.50" = 1234.50 ∧ budgetCoerce "85%" = 85 ∧
      toNumericOr0 "$1,234.50" = 0 ∧ toNumericOr0 "85%" = 0) :=
  ⟨by decide, c5_theorem "N/A" (by decide)⟩

/-- C5 counterexample: coercing the Score cell "$1,234.50" yields 0, not the
1234.50 the claim promises. -/
theorem c5_counterexample :
    toNumericOr0 "$1,234.50" = 0 ∧ ¬((1234.50 : ℚ) = 0) := by
  constructor
  · exact toNumericOr0_none _ (by decide)
  · norm_num

/-! ## Claim C2 -/

/-- C2, corrected: a request filter predicate naming a column absent from the
table is NOT a no-op.  `df[df['GENDER'] == value]` raises a KeyError on the
missing column, the outer handler catches it, and the whole request returns an
error response instead of normal aggregates.  (A filter whose value is absent
or empty is skipped entirely and filters nothing.) -/
theorem c2_theorem (df : DF) (g s : Option String) (h1 : truthy g = true)
    (h2 : ¬("GENDER" ∈ df.cols)) (h3 : ¬(df.rows = [])) :
    get_data df g s = Except.error "KeyError: GENDER" := by
  unfold get_data
  have hemp : df.rows.isEmpty = false := by
    cases hr : df.rows with
    | nil => exact absurd hr h3
    | cons a t => rfl
  rw [hemp]
  simp only [Bool.false_eq_true, if_false]
  rw [if_pos]
  refine ⟨h1, ?_⟩
  rw [transformMain_cols]
  exact h2

/-- C2 witness: a gender filter on a table with no GENDER column turns the
whole request into an error response. -/
theorem c2_witness :
    truthy (some "Male") = true ∧ ¬("GENDER" ∈ (⟨["NAME"], [["A"]]⟩ : DF).cols) ∧
    ¬((⟨["NAME"], [["A"]]⟩ : DF).rows = []) ∧
    get_data ⟨["NAME"], [["A"]]⟩ (some "Male") none = Except.error "KeyError: GENDER" :=
  ⟨by decide, by decide, by decide,
    c2_theorem ⟨["NAME"], [["A"]]⟩ (some "Male") none (by decide) (by decide) (by decide)⟩

/-- C2 counterexample: on the table with single column RESULTS, the request
with a GENDER filter produces an error response, not the claimed no-op. -/
theorem c2_counterexample :
    get_data ⟨["RESULTS"], [["Win"]]⟩ (some "Male") none
      = Except.error "KeyError: GENDER" := by
  decide

/-! ## Claim C1 -/

/-- C1, corrected: each aggregate of `get_data` is guarded only on its primary
column.  When the primary columns School and Sport are absent, their aggregates
are emitted as empty structures and the request still completes with the other
aggregates computed.  But the guards do not cover secondary columns: when Sport
is present and `SR. NO` is absent, the groupby on line 122 raises a KeyError
and the WHOLE request becomes an error response (likewise POINT for school
points), so a missing column can abort the entire request. -/
theorem c1_theorem (df : DF) (h1 : ¬(df.rows = [])) (h2 : ¬("School" ∈ df.cols)) :
    (¬("Sport" ∈ df.cols) →
      ∃ r, get_data df none none = Except.ok r ∧
        r.schoolPoints = [] ∧ r.schoolParticipation = [] ∧
        r.popularSportsBar = [] ∧ r.sportsPie = ⟨[], []⟩ ∧
        r.sportByGender = ⟨[], []⟩ ∧ r.kpiMetrics.uniqueSports = 0 ∧
        r.kpiMetrics.totalAchievements = df.rows.length) ∧
    ("Sport" ∈ df.cols → ¬("SR. NO" ∈ df.cols) →
      get_data df none none = Except.error "KeyError: SR. NO") := by
  have hemp : df.rows.isEmpty = false := by
    cases hr : df.rows with
    | nil => exact absurd hr h1
    | cons a t => rfl
  have hs' : ¬("School" ∈ (transformMain df).cols) := by
    rw [transformMain_cols]
    exact h2
  have hSchool : ¬("School" ∈ (transformMain df).cols ∧
      ¬("POINT" ∈ (transformMain df).cols)) := fun hc => hs' hc.1
  constructor
  · intro h3
    have hp' : ¬("Sport" ∈ (transformMain df).cols) := by
      rw [transformMain_cols]
      exact h3
    have hSport : ¬("Sport" ∈ (transformMain df).cols ∧
        ¬("SR. NO" ∈ (transformMain df).cols)) := fun hc => hp' hc.1
    have hgd : get_data df none none = Except.ok
        { kpiMetrics := mkKpi (transformMain df)
          schoolParticipation := mkSchoolPart (transformMain df)
          schoolPoints := mkSchoolPoints (transformMain df)
          genderDistribution := genderAggMain (transformMain df)
          achievementTypesBar := mkABar (transformMain df)
          achievementTypesPie := mkAPie (transformMain df)
          popularSportsBar := mkPopSports (transformMain df)
          sportsPie := mkSportsPie (transformMain df)
          sportByGender := mkSbGenGuarded (transformMain df) } := by
      simp only [get_data, hemp, truthy, Bool.false_eq_true, false_and, if_false]
      rw [if_neg hSchool, if_neg hSport]
    refine ⟨_, hgd, ?_, ?_, ?_, ?_, ?_, ?_, ?_⟩
    · simp [mkSchoolPoints, hs']
    · simp [mkSchoolPart, hs']
    · simp [mkPopSports, hp']
    · simp [mkSportsPie, hp']
    · simp [mkSbGenGuarded, hp']
    · simp [mkKpi, hp']
    · simp [mkKpi, transformMain_rows_length]
  · intro h3 h4
    have hp3 : "Sport" ∈ (transformMain df).cols := by
      rw [transformMain_cols]
      exact h3
    have hp4 : ¬("SR. NO" ∈ (transformMain df).cols) := by
      rw [transformMain_cols]
      exact h4
    simp only [get_data, hemp, truthy, Bool.false_eq_true, false_and, if_false]
    rw [if_neg hSchool, if_pos ⟨hp3, hp4⟩]

/-- C1 witness: the theorem instantiated at a table with only a RESULTS column;
the request completes with empty school and sport aggregates, and adding a
Sport column without `SR. NO` would turn the request into an error. -/
theorem c1_witness :
    ¬((⟨["RESULTS"], [["Gold"]]⟩ : DF).rows = []) ∧
    ¬("School" ∈ (⟨["RESULTS"], [["Gold"]]⟩ : DF).cols) ∧
    ((¬("Sport" ∈ (⟨["RESULTS"], [["Gold"]]⟩ : DF).cols) →
      ∃ r, get_data ⟨["RESULTS"], [["Gold"]]⟩ none none = Except.ok r ∧
        r.schoolPoints = [] ∧ r.schoolParticipation = [] ∧
        r.popularSportsBar = [] ∧ r.sportsPie = ⟨[], []⟩ ∧
        r.sportByGender = ⟨[], []⟩ ∧ r.kpiMetrics.uniqueSports = 0 ∧
        r.kpiMetrics.totalAchievements = (⟨["RESULTS"], [["Gold"]]⟩ : DF).rows.length) ∧
    ("Sport" ∈ (⟨["RESULTS"], [["Gold"]]⟩ : DF).cols →
      ¬("SR. NO" ∈ (⟨["RESULTS"], [["Gold"]]⟩ : DF).cols) →
      get_data ⟨["RESULTS"], [["Gold"]]⟩ none none = Except.error "KeyError: SR. NO")) :=
  ⟨by decide, by decide, c1_theorem ⟨["RESULTS"], [["Gold"]]⟩ (by decide) (by decide)⟩

/-- C1 counterexample: a one-row table whose only column is Sport. The popular
sports aggregate needs `SR. NO`; its absence aborts the whole request with an
error response instead of emitting that aggregate as empty. -/
theorem c1_counterexample :
    get_data ⟨["Sport"], [["Chess"]]⟩ none none = Except.error "KeyError: SR. NO" := by
  decide

/-! ## Claim C8 -/

theorem pairwise_take_sortDescBy {α β : Type} [LinearOrder β] (f : α → β)
    (l : List α) (n : Nat) :
    List.Pairwise (fun a b => f b ≤ f a) ((sortDescBy f l).take n) :=
  List.Pairwise.sublist (List.take_sublist n (sortDescBy f l)) (sortDescBy_pairwise f l)

/-- C8, confirmed: every top-N output of the code (5 for achievement/result
types, 6 for popular sports, 25 for the department views) is `take N` of the
fully sorted descending sequence: it never has more than N entries, its length
is `min N (full length)`, it is a prefix of the un-truncated sorted sequence
(appending the dropped tail restores it), and the prefix is still sorted
descending. -/
theorem c8_theorem (df : DF) (hR : "RESULTS" ∈ df.cols) (hSp : "Sport" ∈ df.cols)
    (hD : "Department" ∈ df.cols) (hP : "Points" ∈ df.cols) :
    (mkABar df = (resultsCounts df).take 5 ∧
      (mkABar df).length = min 5 (resultsCounts df).length ∧
      mkABar df ++ (resultsCounts df).drop 5 = resultsCounts df ∧
      List.Pairwise (fun a b => b.2 ≤ a.2) (mkABar df)) ∧
    (mkPopSports df = (sportsCounts df).take 6 ∧
      (mkPopSports df).length = min 6 (sportsCounts df).length ∧
      mkPopSports df ++ (sportsCounts df).drop 6 = sportsCounts df ∧
      List.Pairwise (fun a b => b.2 ≤ a.2) (mkPopSports df)) ∧
    ((mkDeptData df).categories = ((deptCounts df).take 25).map Prod.fst ∧
      (mkDeptData df).series = ((deptCounts df).take 25).map Prod.snd ∧
      ((deptCounts df).take 25).length = min 25 (deptCounts df).length ∧
      (deptCounts df).take 25 ++ (deptCounts df).drop 25 = deptCounts df ∧
      List.Pairwise (fun a b => b.2 ≤ a.2) ((deptCounts df).take 25)) ∧
    ((mkDeptPoints df).categories = ((deptPointsList df).take 25).map Prod.fst ∧
      (mkDeptPoints df).series = ((deptPointsList df).take 25).map Prod.snd ∧
      ((deptPointsList df).take 25).length = min 25 (deptPointsList df).length ∧
      (deptPointsList df).take 25 ++ (deptPointsList df).drop 25 = deptPointsList df ∧
      List.Pairwise (fun a b => b.2 ≤ a.2) ((deptPointsList df).take 25)) := by
  refine ⟨⟨?_, ?_, ?_, ?_⟩, ⟨?_, ?_, ?_, ?_⟩, ⟨?_, ?_, ?_, ?_, ?_⟩, ⟨?_, ?_, ?_, ?_, ?_⟩⟩
  · simp [mkABar, hR]
  · simp [mkABar, hR, List.length_take]
  · simp [mkABar, hR, List.take_append_drop]
  · simp only [mkABar, hR, if_pos, resultsCounts, valueCounts]
    exact pairwise_take_sortDescBy Prod.snd _ 5
  · simp [mkPopSports, hSp]
  · simp [mkPopSports, hSp, List.length_take]
  · simp [mkPopSports, hSp, List.take_append_drop]
  · simp only [mkPopSports, hSp, if_pos, sportsCounts]
    exact pairwise_take_sortDescBy Prod.snd _ 6
  · simp [mkDeptData, hD]
  · simp [mkDeptData, hD]
  · simp [List.length_take]
  · simp [List.take_append_drop]
  · simp only [deptCounts, valueCounts]
    exact pairwise_take_sortDescBy Prod.snd _ 25
  · simp [mkDeptPoints, hD, hP]
  · simp [mkDeptPoints, hD, hP]
  · simp [List.length_take]
  · simp [List.take_append_drop]
  · simp only [deptPointsList]
    exact pairwise_take_sortDescBy Prod.snd _ 25

/-- C8 witness: the theorem instantiated at a one-row table carrying all four
relevant columns. -/
theorem c8_witness :
    ("RESULTS" ∈ (⟨["RESULTS", "Sport", "SR. NO", "Department", "Points"],
        [["Win", "Chess", "1", "Math", "10"]]⟩ : DF).cols) ∧
    (mkABar ⟨["RESULTS", "Sport", "SR. NO", "Department", "Points"],
        [["Win", "Chess", "1", "Math", "10"]]⟩
      = (resultsCounts ⟨["RESULTS", "Sport", "SR. NO", "Department", "Points"],
        [["Win", "Chess", "1", "Math", "10"]]⟩).take 5) ∧
    (mkPopSports ⟨["RESULTS", "Sport", "SR. NO", "Department", "Points"],
        [["Win", "Chess", "1", "Math", "10"]]⟩
      = (sportsCounts ⟨["RESULTS", "Sport", "SR. NO", "Department", "Points"],
        [["Win", "Chess", "1", "Math", "10"]]⟩).take 6) :=
  ⟨by decide,
    (c8_theorem _ (by decide) (by decide) (by decide) (by decide)).1.1,
    (c8_theorem _ (by decide) (by decide) (by decide) (by decide)).2.1.1⟩

/-! ## Claim C7 -/

/-- C7, confirmed: when both Sport and GENDER exist, the emitted pivot has (1)
no Total column among its series, (2) rows ordered descending by their row
total, (3) each gender series listing exactly the per-(sport, gender)
distinct-`SR. NO` counts aligned with the row order, and (4) a cell with no
matching rows equal to 0 (the `fillna(0)` case). -/
theorem c7_theorem (df : DF) (h1 : "Sport" ∈ df.cols) (h2 : "GENDER" ∈ df.cols) :
    (∀ p ∈ (mkSbGenGuarded df).series, ¬(p.1 = "Total")) ∧
    List.Pairwise (fun a b => sbTotal df b ≤ sbTotal df a)
      (mkSbGenGuarded df).categories ∧
    (∀ p ∈ (mkSbGenGuarded df).series,
      p.2 = (mkSbGenGuarded df).categories.map (fun s => sbCell df s p.1)) ∧
    (∀ s g, df.rows.filter
        (fun r => rowCell df "Sport" r == s && rowCell df "GENDER" r == g) = [] →
      sbCell df s g = 0) := by
  have hg : mkSbGenGuarded df = mkSbGen df := by simp [mkSbGenGuarded, h1, h2]
  rw [hg]
  refine ⟨?_, ?_, ?_, ?_⟩
  · intro p hp
    simp only [mkSbGen] at hp
    rcases List.mem_map.mp hp with ⟨g, hgmem, rfl⟩
    have := List.of_mem_filter hgmem
    simpa using this
  · simp only [mkSbGen]
    exact sortDescBy_pairwise (sbTotal df) _
  · intro p hp
    simp only [mkSbGen] at hp ⊢
    rcases List.mem_map.mp hp with ⟨g, hgmem, rfl⟩
    rfl
  · intro s g hf
    unfold sbCell
    rw [hf]
    rfl

/-- C7 witness: the theorem instantiated at spec scenario A's table, together
with the concrete pivot it produces: rows Chess (total 2) before Ludo
(total 1), gender columns Boy and Girl, missing (Ludo, Girl) cell 0. -/
theorem c7_witness :
    ("Sport" ∈ (⟨["Sport", "GENDER", "SR. NO"],
        [["Chess", "Boy", "1"], ["Chess", "Girl", "2"], ["Ludo", "Boy", "3"]]⟩ : DF).cols) ∧
    ("GENDER" ∈ (⟨["Sport", "GENDER", "SR. NO"],
        [["Chess", "Boy", "1"], ["Chess", "Girl", "2"], ["Ludo", "Boy", "3"]]⟩ : DF).cols) ∧
    (mkSbGenGuarded ⟨["Sport", "GENDER", "SR. NO"],
        [["Chess", "Boy", "1"], ["Chess", "Girl", "2"], ["Ludo", "Boy", "3"]]⟩).categories
      = ["Chess", "Ludo"] ∧
    (mkSbGenGuarded ⟨["Sport", "GENDER", "SR. NO"],
        [["Chess", "Boy", "1"], ["Chess", "Girl", "2"], ["Ludo", "Boy", "3"]]⟩).series
      = [("Boy", [1, 1]), ("Girl", [1, 0])] ∧
    (∀ p ∈ (mkSbGenGuarded ⟨["Sport", "GENDER", "SR. NO"],
        [["Chess", "Boy", "1"], ["Chess", "Girl", "2"], ["Ludo", "Boy", "3"]]⟩).series,
      ¬(p.1 = "Total")) :=
  ⟨by decide, by decide, by decide, by decide,
    ( c7_theorem ⟨["Sport", "GENDER", "SR. NO"],
      [["Chess", "Boy", "1"], ["Chess", "Girl", "2"], ["Ludo", "Boy", "3"]]⟩
      (by decide) (by decide)).1⟩

/-! ## Claim C6 -/

/-- C6, corrected: with a GENDER column present, the main dashboard's gender
distribution counts one entity per distinct `SR. NO` value when that column
exists, and one per row when it does not.  The staff dashboard, however, does
NOT treat every row as distinct when `SR. NO` is absent: it falls back to
deduplicating by Name, so its gender counts sum to the number of distinct
Names. -/
theorem c6_theorem (df df2 : DF) (hg : "GENDER" ∈ df.cols)
    (hn : ¬("SR. NO" ∈ df2.cols)) :
    ("SR. NO" ∈ df.cols →
      (genderAggMain df).series.sum = countDistinct (df.col "SR. NO")) ∧
    (¬("SR. NO" ∈ df.cols) → (genderAggMain df).series.sum = df.rows.length) ∧
    (staffGender df2).series.sum = countDistinct (df2.col "Name") := by
  refine ⟨?_, ?_, ?_⟩
  · intro hs
    simp only [genderAggMain, if_pos hg, if_pos hs]
    rw [valueCounts_sum, col_length]
    exact dedupByCol_rows_length df "SR. NO"
  · intro hs
    simp only [genderAggMain, if_pos hg, if_neg hs]
    rw [valueCounts_sum, col_length]
  · simp only [staffGender, staffIdCol, if_neg hn]
    rw [valueCounts_sum, col_length]
    exact dedupByCol_rows_length df2 "Name"

/-- C6 witness: the theorem instantiated at a table with a duplicated
identifier (3 rows, 2 distinct `SR. NO` values) and at a staff table without
`SR. NO` (2 rows, 1 distinct Name). -/
theorem c6_witness :
    ("GENDER" ∈ (⟨["GENDER", "SR. NO"],
        [["Boy", "1"], ["Boy", "1"], ["Girl", "2"]]⟩ : DF).cols) ∧
    ¬("SR. NO" ∈ (⟨["Name", "Gender"], [["A", "Boy"], ["A", "Girl"]]⟩ : DF).cols) ∧
    (("SR. NO" ∈ (⟨["GENDER", "SR. NO"],
        [["Boy", "1"], ["Boy", "1"], ["Girl", "2"]]⟩ : DF).cols →
      (genderAggMain ⟨["GENDER", "SR. NO"],
        [["Boy", "1"], ["Boy", "1"], ["Girl", "2"]]⟩).series.sum
        = countDistinct ((⟨["GENDER", "SR. NO"],
            [["Boy", "1"], ["Boy", "1"], ["Girl", "2"]]⟩ : DF).col "SR. NO")) ∧
    (¬("SR. NO" ∈ (⟨["GENDER", "SR. NO"],
        [["Boy", "1"], ["Boy", "1"], ["Girl", "2"]]⟩ : DF).cols) →
      (genderAggMain ⟨["GENDER", "SR. NO"],
        [["Boy", "1"], ["Boy", "1"], ["Girl", "2"]]⟩).series.sum
        = (⟨["GENDER", "SR. NO"],
            [["Boy", "1"], ["Boy", "1"], ["Girl", "2"]]⟩ : DF).rows.length) ∧
    (staffGender ⟨["Name", "Gender"], [["A", "Boy"], ["A", "Girl"]]⟩).series.sum
      = countDistinct ((⟨["Name", "Gender"],
          [["A", "Boy"], ["A", "Girl"]]⟩ : DF).col "Name")) :=
  ⟨by decide, by decide,
    c6_theorem ⟨["GENDER", "SR. NO"], [["Boy", "1"], ["Boy", "1"], ["Girl", "2"]]⟩
      ⟨["Name", "Gender"], [["A", "Boy"], ["A", "Girl"]]⟩ (by decide) (by decide)⟩

/-- C6 counterexample: the staff endpoint on a table with no `SR. NO` column
and two rows sharing one Name: the gender distribution counts a single entity
(label Boy with count 1) although the table has two rows — rows are NOT all
treated as distinct entities; they are deduplicated by Name. -/
theorem c6_counterexample :
    (get_staff_data ⟨["NAME OF STAFF", "GENDER"], [["A", "Boy"], ["A", "Girl"]]⟩).map
        (fun r => (r.gender.labels, r.gender.series))
      = Except.ok (["Boy"], [1]) ∧
    (⟨["NAME OF STAFF", "GENDER"], [["A", "Boy"], ["A", "Girl"]]⟩ : DF).rows.length = 2 := by
  decide

/-! ## Claim C9 -/

/-- C9, confirmed: whenever the operations endpoint answers successfully, the
reported unused values are exactly `max(Capacity_month - utilized, 0)` computed
elementwise over the coerced numeric values of the two columns (which the
endpoint also reports as totals and used), and no unused value is ever
negative — even when utilized exceeds the capacity. -/
theorem c9_theorem (df : DF) (m : Option String) (r : OpsResult)
    (h : get_operations_data df m = Except.ok r) :
    r.unused = List.zipWith (fun c u => max (c - u) 0) r.totals r.used ∧
    r.used = ((opsView df m).col "utilized").map pctCoerce ∧
    r.totals = ((opsView df m).col "Capacity_month").map pctCoerce ∧
    ∀ x ∈ r.unused, 0 ≤ x := by
  unfold get_operations_data at h
  by_cases hemp : df.rows.isEmpty = true
  · rw [if_pos hemp] at h
    have hr : df.rows = [] := by
      cases hl : df.rows with
      | nil => rfl
      | cons a t => rw [hl] at hemp; cases hemp
    obtain rfl : (⟨[], [], [], []⟩ : OpsResult) = r := by
      injection h
    refine ⟨rfl, ?_, ?_, ?_⟩
    · unfold opsView
      split
      · simp [filterEq, trimColsDF, DF.col, hr]
      · simp [trimColsDF, DF.col, hr]
    · unfold opsView
      split
      · simp [filterEq, trimColsDF, DF.col, hr]
      · simp [trimColsDF, DF.col, hr]
    · intro x hx
      cases hx
  · rw [if_neg hemp] at h
    split at h
    · rename_i hcols
      obtain rfl := (Except.ok.injEq _ _).mp h
      refine ⟨rfl, rfl, rfl, ?_⟩
      intro x hx
      exact zipWith_clamp_nonneg _ _ x hx
    · cases h

/-- C9 witness: a facility where utilized (120) exceeds capacity (100); the
endpoint answers, unused is clamped to 0, and all reported unused values are
nonnegative. -/
theorem c9_witness :
    (get_operations_data ⟨["Games", "utilized", "Capacity_month"],
        [["Pool", "120", "100"]]⟩ none
      = Except.ok ⟨["Pool"], [pctCoerce "120"],
          [max (pctCoerce "100" - pctCoerce "120") 0], [pctCoerce "100"]⟩) ∧
    ((⟨["Pool"], [pctCoerce "120"], [max (pctCoerce "100" - pctCoerce "120") 0],
        [pctCoerce "100"]⟩ : OpsResult).unused
      = List.zipWith (fun c u => max (c - u) 0)
          (⟨["Pool"], [pctCoerce "120"], [max (pctCoerce "100" - pctCoerce "120") 0],
            [pctCoerce "100"]⟩ : OpsResult).totals
          (⟨["Pool"], [pctCoerce "120"], [max (pctCoerce "100" - pctCoerce "120") 0],
            [pctCoerce "100"]⟩ : OpsResult).used ∧
      (⟨["Pool"], [pctCoerce "120"], [max (pctCoerce "100" - pctCoerce "120") 0],
          [pctCoerce "100"]⟩ : OpsResult).used
        = ((opsView ⟨["Games", "utilized", "Capacity_month"],
            [["Pool", "120", "100"]]⟩ none).col "utilized").map pctCoerce ∧
      (⟨["Pool"], [pctCoerce "120"], [max (pctCoerce "100" - pctCoerce "120") 0],
          [pctCoerce "100"]⟩ : OpsResult).totals
        = ((opsView ⟨["Games", "utilized", "Capacity_month"],
            [["Pool", "120", "100"]]⟩ none).col "Capacity_month").map pctCoerce ∧
      ∀ x ∈ (⟨["Pool"], [pctCoerce "120"], [max (pctCoerce "100" - pctCoerce "120") 0],
          [pctCoerce "100"]⟩ : OpsResult).unused, 0 ≤ x) ∧
    pctCoerce "120" = 120 ∧ pctCoerce "100" = 100 ∧
    max (pctCoerce "100" - pctCoerce "120") 0 = 0 := by
  have h120 : pctCoerce "120" = 120 := by
    unfold pctCoerce
    rw [toNumericOr0_eq _ ⟨false, 120, 0, 0⟩ (by decide)]
    norm_num [decVal]
  have h100 : pctCoerce "100" = 100 := by
    unfold pctCoerce
    rw [toNumericOr0_eq _ ⟨false, 100, 0, 0⟩ (by decide)]
    norm_num [decVal]
  have hok : get_operations_data ⟨["Games", "utilized", "Capacity_month"],
      [["Pool", "120", "100"]]⟩ none
      = Except.ok ⟨["Pool"], [pctCoerce "120"],
          [max (pctCoerce "100" - pctCoerce "120") 0], [pctCoerce "100"]⟩ := rfl
  refine ⟨hok, c9_theorem _ none _ hok, h120, h100, ?_⟩
  rw [h120, h100]
  norm_num

/-! ## Claim C10 -/

/-- C10, confirmed: both totalPoints KPIs (main dashboard over POINT, staff
dashboard over Points) apply Python `int()` — truncation toward zero — to the
coerced rational sum of the score column: the emitted KPI is an integer, and
whenever the sum is nonnegative the KPI is at most the exact sum and within
one of it, so a fractional total is truncated rather than reported exactly. -/
theorem c10_theorem (df df2 : DF) (h : "POINT" ∈ df.cols) (h2 : "Points" ∈ df2.cols) :
    (totalPointsKpi df = pyInt (((df.col "POINT").map toNumericOr0).sum) ∧
      (0 ≤ ((df.col "POINT").map toNumericOr0).sum →
        (totalPointsKpi df : ℚ) ≤ ((df.col "POINT").map toNumericOr0).sum ∧
        ((df.col "POINT").map toNumericOr0).sum < (totalPointsKpi df : ℚ) + 1)) ∧
    (staffTotalPoints df2 = pyInt (((df2.col "Points").map toNumericOr0).sum) ∧
      (0 ≤ ((df2.col "Points").map toNumericOr0).sum →
        (staffTotalPoints df2 : ℚ) ≤ ((df2.col "Points").map toNumericOr0).sum ∧
        ((df2.col "Points").map toNumericOr0).sum < (staffTotalPoints df2 : ℚ) + 1)) := by
  constructor
  · constructor
    · simp [totalPointsKpi, h]
    · intro hs
      have hb := pyInt_le_of_nonneg _ hs
      constructor
      · simpa [totalPointsKpi, h] using hb.1
      · simpa [totalPointsKpi, h] using hb.2
  · constructor
    · simp [staffTotalPoints, h2]
    · intro hs
      have hb := pyInt_le_of_nonneg _ hs
      constructor
      · simpa [staffTotalPoints, h2] using hb.1
      · simpa [staffTotalPoints, h2] using hb.2

/-- C10 witness: two POINT cells "10.25" and "5.25" sum to 15.5; the emitted
totalPoints KPI is the truncation 15, strictly below the exact fractional sum. -/
theorem c10_witness :
    ("POINT" ∈ (⟨["POINT"], [["10.25"], ["5.25"]]⟩ : DF).cols) ∧
    ("Points" ∈ (⟨["Points"], [["7.5"]]⟩ : DF).cols) ∧
    (totalPointsKpi ⟨["POINT"], [["10.25"], ["5.25"]]⟩
        = pyInt ((((⟨["POINT"], [["10.25"], ["5.25"]]⟩ : DF).col "POINT").map
            toNumericOr0).sum) ∧
      (0 ≤ (((⟨["POINT"], [["10.25"], ["5.25"]]⟩ : DF).col "POINT").map
          toNumericOr0).sum →
        (totalPointsKpi ⟨["POINT"], [["10.25"], ["5.25"]]⟩ : ℚ)
            ≤ (((⟨["POINT"], [["10.25"], ["5.25"]]⟩ : DF).col "POINT").map
              toNumericOr0).sum ∧
        (((⟨["POINT"], [["10.25"], ["5.25"]]⟩ : DF).col "POINT").map
            toNumericOr0).sum
          < (totalPointsKpi ⟨["POINT"], [["10.25"], ["5.25"]]⟩ : ℚ) + 1)) ∧
    (((⟨["POINT"], [["10.25"], ["5.25"]]⟩ : DF).col "POINT").map toNumericOr0).sum
      = 31 / 2 ∧
    totalPointsKpi ⟨["POINT"], [["10.25"], ["5.25"]]⟩ = 15 := by
  have hsum : (((⟨["POINT"], [["10.25"], ["5.25"]]⟩ : DF).col "POINT").map
      toNumericOr0).sum = 31 / 2 := by
    show ([toNumericOr0 "10.25", toNumericOr0 "5.25"] : List ℚ).sum = 31 / 2
    rw [toNumericOr0_eq "10.25" ⟨false, 10, 25, 2⟩ (by decide),
      toNumericOr0_eq "5.25" ⟨false, 5, 25, 2⟩ (by decide)]
    norm_num [decVal, List.sum_cons, List.sum_nil]
  refine ⟨by decide, by decide,
    ( c10_theorem ⟨["POINT"], [["10.25"], ["5.25"]]⟩ ⟨["Points"], [["7.5"]]⟩
      (by decide) (by decide)).1, hsum, ?_⟩
  have hmem : "POINT" ∈ (⟨["POINT"], [["10.25"], ["5.25"]]⟩ : DF).cols := by decide
  have h1 := (( c10_theorem ⟨["POINT"], [["10.25"], ["5.25"]]⟩ ⟨["Points"], [["7.5"]]⟩
      hmem (by decide)).1).1
  rw [h1, hsum]
  unfold pyInt
  rw [if_pos (by norm_num)]
  norm_num
